import Mathlib

/-!
Shallow embedding of the token-broker logic of a React Native reCAPTCHA v3
component (source file src/index.tsx). Pure functions of the source are
translated to Lean functions; the stateful hook logic is translated to
explicit state passing on a BrokerState record, with side effects reified
as an explicit effect list.
-/

namespace ReCaptcha

/-- Character-list version of a string-prefix test, used to build the
substring test corresponding to the JS String.prototype.includes. -/
def isPrefixChars : List Char → List Char → Bool
  | [], _ => true
  | _ :: _, [] => false
  | p :: ps, c :: cs => p == c && isPrefixChars ps cs

/-- Auxiliary scan: does the pattern occur as a contiguous run somewhere in
the character list? -/
def hasSubstrAux (pat : List Char) : List Char → Bool
  | [] => pat.isEmpty
  | c :: t => isPrefixChars pat (c :: t) || hasSubstrAux pat t

/-- JS s.includes(pat): pat occurs as a contiguous substring of s. -/
def strIncludes (s pat : String) : Bool := hasSubstrAux pat.data s.data

/-- Character class of the siteKey regex in the source:
validateSiteKey tests the string against the pattern
caret [a-zA-Z0-9_-] repeated 40 times, dollar. -/
def isSiteKeyChar (c : Char) : Bool :=
  (decide ('a' ≤ c) && decide (c ≤ 'z')) ||
  (decide ('A' ≤ c) && decide (c ≤ 'Z')) ||
  (decide ('0' ≤ c) && decide (c ≤ '9')) ||
  c == '_' || c == '-'

/-- validateSiteKey from the source: the anchored 40-repetition regex over
the class letters, digits, underscore, hyphen. -/
def validateSiteKey (siteKey : String) : Bool :=
  siteKey.length == 40 && siteKey.data.all isSiteKeyChar

/-- Modelled from the spec words, for comparison with validateSiteKey: a
40-character alphanumeric token (letters and digits only). -/
def specAlphanumeric40 (s : String) : Bool :=
  s.length == 40 && s.data.all (fun c =>
    (decide ('a' ≤ c) && decide (c ≤ 'z')) ||
    (decide ('A' ≤ c) && decide (c ≤ 'Z')) ||
    (decide ('0' ≤ c) && decide (c ≤ '9')))

/-- getErrorMessage from the source: rewrite well-known remote error texts
to friendlier messages by substring matching, with a fallback for an empty
message. -/
def getErrorMessage (message : String) : String :=
  if strIncludes message "browser-error" then
    "Invalid baseUrl or domain not registered in reCAPTCHA console"
  else if strIncludes message "invalid-input-response" then
    "Token expired or already used. Generate a new token."
  else if strIncludes message "network" then
    "Network error. Check your internet connection."
  else if message == "" then "reCAPTCHA verification failed"
  else message

/-- Error codes of the ReCaptchaError type in the source. -/
inductive ErrorCode
  | NETWORK_ERROR
  | TIMEOUT
  | INVALID_SITE_KEY
  | WEBVIEW_ERROR
  | VALIDATION_ERROR
  | BROWSER_ERROR
deriving DecidableEq, Repr

/-- ReCaptchaError of the source (details field omitted: opaque payload). -/
structure ReCaptchaError where
  code : ErrorCode
  message : String
deriving DecidableEq, Repr

/-- ReCaptchaStatus of the source. -/
inductive Status
  | idle
  | loading
  | ready
  | error
  | success
deriving DecidableEq, Repr

/-- A resolve/reject continuation pair registered for a request, identified
by a request id; used both for the single in-flight slot and for queued
pending requests. -/
structure ReqRef where
  rid : Nat
  action : String
deriving DecidableEq, Repr

/-- An entry of the token cache: token plus capture timestamp. -/
structure CacheEntry where
  token : String
  timestamp : Int
deriving DecidableEq, Repr

/-- The instance-scoped mutable state of the component that the broker
logic reads and writes. -/
structure BrokerState where
  isReady : Bool
  isLoading : Bool
  error : Option ReCaptchaError
  status : Status
  showError : Bool
  tokenPromise : Option ReqRef
  pending : List ReqRef
  cache : List (String × CacheEntry)
deriving DecidableEq, Repr

/-- Reified side effects of the broker logic. invokeResolve/invokeReject
invoke the continuations stored for a request id; settleResolve/settleReject
settle the outer promise returned by getToken; the schedule and timer
constructors record the delays passed to setTimeout. -/
inductive Effect
  | invokeResolve (rid : Nat) (token : Option String)
  | invokeReject (rid : Nat) (message : String)
  | injectScript (siteKey : String) (action : String)
  | callOnError (message : String)
  | callOnVerify (token : String)
  | callOnTokenGenerated (token : String)
  | callOnLoad
  | scheduleDispatch (delayMs : Nat) (rid : Nat) (action : String)
  | scheduleRetry (delayMs : Nat) (rid : Nat) (action : String) (nextAttempt : Nat)
  | armTimer (rid : Nat) (delayMs : Nat)
  | cancelTimer (rid : Nat)
  | settleResolve (rid : Nat) (token : Option String)
  | settleReject (rid : Nat) (message : String)
deriving DecidableEq, Repr

/-- A message delivered from the surface, after JSON parsing: the three
known types (with their optional fields), an unknown parsed type, or a
payload on which JSON.parse throws. -/
inductive RawMessage
  | ready
  | verify (token : Option String)
  | error (error : Option String)
  | other
  | unparseable
deriving DecidableEq, Repr

/-- JS Map.get on the assoc-list model of the token cache. -/
def mapGet (m : List (String × CacheEntry)) (k : String) : Option CacheEntry :=
  match m with
  | [] => none
  | (k1, v) :: t => if k1 == k then some v else mapGet t k

/-- JS Map.set on the assoc-list model of the token cache: overwrite the
entry of the key when present, append otherwise. -/
def mapSet (m : List (String × CacheEntry)) (k : String) (v : CacheEntry) :
    List (String × CacheEntry) :=
  match m with
  | [] => [(k, v)]
  | (k1, v1) :: t => if k1 == k then (k, v) :: t else (k1, v1) :: mapSet t k v

/-- CACHE_DURATION constant of the source: 2 minutes. -/
def CACHE_DURATION : Int := 120000

/-- State at mount: isReady, isLoading, showError start false; error is
null; status idle; no in-flight slot; empty queue; empty cache. -/
def initState : BrokerState :=
  { isReady := false
    isLoading := false
    error := none
    status := Status.idle
    showError := false
    tokenPromise := none
    pending := []
    cache := [] }

/-- clearError of the source. -/
def clearErrorState (s : BrokerState) : BrokerState :=
  { s with error := none, showError := false, status := Status.idle }

/-- handleError of the source: build the enhanced error via getErrorMessage,
record it, invoke onError with the original message, and if an in-flight
request exists invoke its reject continuation and clear the slot. -/
def handleError (errorMessage : String) (errorCode : ErrorCode) (s : BrokerState) :
    BrokerState × List Effect :=
  let enhanced : ReCaptchaError := { code := errorCode, message := getErrorMessage errorMessage }
  let s1 := { s with error := some enhanced, showError := true, status := Status.error }
  match s1.tokenPromise with
  | some p => ({ s1 with tokenPromise := none },
      [Effect.callOnError errorMessage, Effect.invokeReject p.rid errorMessage])
  | none => (s1, [Effect.callOnError errorMessage])

/-- The dispatch tail of executeReCaptcha: mark loading, clear the error
state, record the in-flight slot, and inject the execution script. -/
def dispatchToSurface (siteKey customAction : String) (rid : Nat) (s : BrokerState) :
    BrokerState × List Effect :=
  let s1 := { s with isLoading := true, status := Status.loading }
  let s2 := clearErrorState s1
  let s3 := { s2 with tokenPromise := some ⟨rid, customAction⟩ }
  (s3, [Effect.injectScript siteKey customAction])

/-- executeReCaptcha of the source: queue when not ready; otherwise serve a
fresh cache entry for the key siteKey-action, or dispatch to the surface. -/
def executeReCaptcha (siteKey : String) (now : Int) (customAction : String) (rid : Nat)
    (s : BrokerState) : BrokerState × List Effect :=
  if !s.isReady then
    ({ s with pending := s.pending ++ [⟨rid, customAction⟩] }, [])
  else
    let cacheKey := siteKey ++ "-" ++ customAction
    match mapGet s.cache cacheKey with
    | some cached =>
        if now - cached.timestamp < CACHE_DURATION then
          (s, [Effect.invokeResolve rid (some cached.token)])
        else
          dispatchToSurface siteKey customAction rid s
    | none => dispatchToSurface siteKey customAction rid s

/-- Classification of an ERROR reply in handleMessage: substring match of
the remote error text against browser-error, catch-all WEBVIEW_ERROR. -/
def classifyReply (errOpt : Option String) : ErrorCode :=
  if strIncludes (errOpt.getD "") "browser-error" then ErrorCode.BROWSER_ERROR
  else ErrorCode.WEBVIEW_ERROR

/-- handleMessage of the source: READY sets the flag; VERIFY with a truthy
token succeeds (a missing, null, or empty token falls through silently);
ERROR routes to handleError; an unknown type is ignored; a parse failure
degrades to the catch-all error. -/
def handleMessage (msg : RawMessage) (s : BrokerState) : BrokerState × List Effect :=
  match msg with
  | RawMessage.ready =>
      ({ s with isReady := true, status := Status.ready, showError := false },
       [Effect.callOnLoad])
  | RawMessage.verify tokenOpt =>
      match tokenOpt with
      | some token =>
          if token == "" then (s, [])
          else
            let s1 := { s with status := Status.success }
            match s1.tokenPromise with
            | some p => ({ s1 with tokenPromise := none },
                [Effect.callOnVerify token, Effect.invokeResolve p.rid (some token)])
            | none => (s1, [Effect.callOnVerify token])
      | none => (s, [])
  | RawMessage.error errOpt =>
      let errText := errOpt.getD ""
      handleError (if errText == "" then "reCAPTCHA error" else errText) (classifyReply errOpt) s
  | RawMessage.other => (s, [])
  | RawMessage.unparseable =>
      handleError "Failed to parse reCAPTCHA response" ErrorCode.WEBVIEW_ERROR s

/-- handleWebViewError of the source. -/
def handleWebViewError (description : String) (s : BrokerState) : BrokerState × List Effect :=
  handleError ("WebView error: " ++ description) ErrorCode.WEBVIEW_ERROR s

/-- handleWebViewHttpError of the source: server status codes classify as
NETWORK_ERROR, the rest as WEBVIEW_ERROR. -/
def handleWebViewHttpError (statusCode : Nat) (s : BrokerState) : BrokerState × List Effect :=
  let errorCode := if 500 ≤ statusCode then ErrorCode.NETWORK_ERROR else ErrorCode.WEBVIEW_ERROR
  handleError ("WebView HTTP error: " ++ toString statusCode) errorCode s

/-- The forEach body draining the queue tail: the element at zero-based
index idx of the tail is scheduled after (idx + 1) * 500 ms. -/
def staggered (rest : List ReqRef) (idx : Nat) : List Effect :=
  match rest with
  | [] => []
  | r :: t => Effect.scheduleDispatch ((idx + 1) * 500) r.rid r.action :: staggered t (idx + 1)

/-- The queue drain of the readiness useEffect: the head is dispatched
immediately, the tail staggered by 500 ms per position. -/
def drainQueue (q : List ReqRef) : List Effect :=
  match q with
  | [] => []
  | first :: rest => Effect.scheduleDispatch 0 first.rid first.action :: staggered rest 0

/-- The readiness useEffect: when ready with a non-empty queue, empty the
queue and emit the drain schedule. -/
def onReadyEffect (s : BrokerState) : BrokerState × List Effect :=
  if s.isReady && !s.pending.isEmpty then
    ({ s with pending := [] }, drainQueue s.pending)
  else (s, [])

/-- wrappedResolve of getToken: cancel the timeout, clear the loading flag,
cache a truthy token under siteKey-action with the current timestamp and
invoke onTokenGenerated, then settle the outer promise. -/
def wrappedResolve (siteKey customAction : String) (now : Int) (rid : Nat)
    (token : Option String) (s : BrokerState) : BrokerState × List Effect :=
  let s1 := { s with isLoading := false }
  match token with
  | some t =>
      if t == "" then (s1, [Effect.cancelTimer rid, Effect.settleResolve rid (some t)])
      else
        ({ s1 with cache := mapSet s1.cache (siteKey ++ "-" ++ customAction) ⟨t, now⟩ },
         [Effect.cancelTimer rid, Effect.callOnTokenGenerated t,
          Effect.settleResolve rid (some t)])
  | none => (s1, [Effect.cancelTimer rid, Effect.settleResolve rid none])

/-- wrappedReject of getToken: cancel the timeout, clear the loading flag;
while the attempt counter is below retryAttempts, schedule a re-dispatch
after 1000 * retryAttempt ms with the counter incremented; otherwise settle
the outer promise rejected with the error. -/
def wrappedReject (retryAttempts : Nat) (customAction : String) (rid : Nat) (err : String)
    (retryAttempt : Nat) (s : BrokerState) : BrokerState × List Effect :=
  let s1 := { s with isLoading := false }
  if retryAttempt < retryAttempts then
    (s1, [Effect.cancelTimer rid,
          Effect.scheduleRetry (1000 * retryAttempt) rid customAction (retryAttempt + 1)])
  else
    (s1, [Effect.cancelTimer rid, Effect.settleReject rid err])

/-- The body of getToken up to its first suspension: arm the timeout timer
and run executeReCaptcha with the wrapped continuations (identified by the
request id). -/
def getTokenStart (timeoutMs : Nat) (rid : Nat) (siteKey customAction : String) (now : Int)
    (s : BrokerState) : BrokerState × List Effect :=
  let es := executeReCaptcha siteKey now customAction rid s
  (es.1, Effect.armTimer rid timeoutMs :: es.2)

/-- The timeout callback of getToken: handleError with a TIMEOUT code, then
reject the outer promise directly. -/
def timeoutFire (rid : Nat) (s : BrokerState) : BrokerState × List Effect :=
  let hs := handleError "Token generation timeout" ErrorCode.TIMEOUT s
  (hs.1, hs.2 ++ [Effect.settleReject rid "Token generation timeout"])

/-- The closure of wrappedReject under every dispatch attempt failing:
attempt k fails with errs k; the branch condition and the retry delay are
those of wrappedReject. Returns the list of retry delays and the error that
is surfaced by the final rejection. -/
def failRun (retryAttempts : Nat) (errs : Nat → String) (retryAttempt : Nat) :
    List Nat × String :=
  if retryAttempt < retryAttempts then
    let rest := failRun retryAttempts errs (retryAttempt + 1)
    (1000 * retryAttempt :: rest.1, rest.2)
  else
    ([], errs retryAttempt)
termination_by retryAttempts - retryAttempt

/-- The debug-only input validation useEffect: when debug is on, an invalid
siteKey (and an invalid baseUrl, whose URL-parse result is passed in as a
flag) produce console warnings; otherwise nothing happens. -/
def validationWarnings (debug : Bool) (siteKey : String) (baseUrlValid : Bool) : List String :=
  if debug then
    (if !validateSiteKey siteKey then
      ["ReCaptchaV3: Invalid siteKey format. Expected 40-character alphanumeric string."]
     else []) ++
    (if !baseUrlValid then
      ["ReCaptchaV3: Invalid baseUrl format. Expected valid URL with protocol."]
     else [])
  else []

/-- The operations that mutate the broker state during the component's
lifetime, for stating global invariants. -/
inductive BrokerOp
  | deliver (m : RawMessage)
  | loadFailure (description : String)
  | httpFailure (statusCode : Nat)
  | execute (siteKey : String) (now : Int) (customAction : String) (rid : Nat)
  | clearErrorCall
  | timerFired (rid : Nat)
  | resolveContinuation (siteKey customAction : String) (now : Int) (rid : Nat)
      (token : Option String)
  | rejectContinuation (retryAttempts : Nat) (customAction : String) (rid : Nat) (err : String)
      (attempt : Nat)
  | drainReady
  | startGetToken (timeoutMs : Nat) (rid : Nat) (siteKey customAction : String) (now : Int)
deriving DecidableEq, Repr

/-- One step of the broker: apply the operation to the state. -/
def stepBroker : BrokerOp → BrokerState → BrokerState × List Effect
  | BrokerOp.deliver m, s => handleMessage m s
  | BrokerOp.loadFailure d, s => handleWebViewError d s
  | BrokerOp.httpFailure c, s => handleWebViewHttpError c s
  | BrokerOp.execute sk now a rid, s => executeReCaptcha sk now a rid s
  | BrokerOp.clearErrorCall, s => (clearErrorState s, [])
  | BrokerOp.timerFired rid, s => timeoutFire rid s
  | BrokerOp.resolveContinuation sk a now rid tok, s => wrappedResolve sk a now rid tok s
  | BrokerOp.rejectContinuation r a rid e n, s => wrappedReject r a rid e n s
  | BrokerOp.drainReady, s => onReadyEffect s
  | BrokerOp.startGetToken t rid sk a now, s => getTokenStart t rid sk a now s

/-- The failure events of the component: an ERROR reply, a reply parse
failure, a load/navigation failure, an HTTP failure, a fired timeout. -/
inductive FailureEvent
  | errorReply (err : Option String)
  | parseFailure
  | loadFailure (description : String)
  | httpFailure (statusCode : Nat)
  | timeoutFired (rid : Nat)
deriving DecidableEq, Repr

/-- Apply a failure event to the broker state. -/
def applyFailure : FailureEvent → BrokerState → BrokerState × List Effect
  | FailureEvent.errorReply e, s => handleMessage (RawMessage.error e) s
  | FailureEvent.parseFailure, s => handleMessage RawMessage.unparseable s
  | FailureEvent.loadFailure d, s => handleWebViewError d s
  | FailureEvent.httpFailure c, s => handleWebViewHttpError c s
  | FailureEvent.timeoutFired rid, s => timeoutFire rid s

/-- Is the effect a rejection of a request (continuation or outer promise)? -/
def isRejection : Effect → Bool
  | Effect.invokeReject _ _ => true
  | Effect.settleReject _ _ => true
  | _ => false

lemma mapGet_mapSet_self (m : List (String × CacheEntry)) (k : String) (v : CacheEntry) :
    mapGet (mapSet m k v) k = some v := by
  induction m with
  | nil => simp [mapGet, mapSet]
  | cons h t ih =>
    obtain ⟨k1, v1⟩ := h
    by_cases hk : k1 = k
    · simp [mapSet, mapGet, hk]
    · simp [mapSet, mapGet, hk, ih]

lemma handleError_effects (m : String) (c : ErrorCode) (s : BrokerState) :
    (handleError m c s).2 =
      match s.tokenPromise with
      | some p => [Effect.callOnError m, Effect.invokeReject p.rid m]
      | none => [Effect.callOnError m] := by
  cases h : s.tokenPromise <;> simp [handleError, h]

lemma handleError_error (m : String) (c : ErrorCode) (s : BrokerState) :
    ((handleError m c s).1).error = some ⟨c, getErrorMessage m⟩ := by
  cases h : s.tokenPromise <;> simp [handleError, h]

lemma handleError_isReady (m : String) (c : ErrorCode) (s : BrokerState) :
    ((handleError m c s).1).isReady = s.isReady := by
  cases h : s.tokenPromise <;> simp [handleError, h]

lemma executeReCaptcha_isReady (sk : String) (now : Int) (a : String) (rid : Nat)
    (s : BrokerState) : ((executeReCaptcha sk now a rid s).1).isReady = s.isReady := by
  unfold executeReCaptcha
  cases h : s.isReady
  · simp [h]
  · simp only [h]
    cases hm : mapGet s.cache (sk ++ "-" ++ a)
    · simp [hm, dispatchToSurface, clearErrorState, h]
    · simp only [hm, Bool.not_true, Bool.false_eq_true, if_false]
      split <;> simp [dispatchToSurface, clearErrorState, h]

/-- C1: the cache check of executeReCaptcha happens only on the ready path;
a request arriving before readiness is enqueued even when a fresh cached
token for its key exists, so the cache check does not take precedence over
queuing. Concrete refutation: not-ready state with a fresh cache entry for
the key, the request is queued and nothing resolves. -/
theorem C1_counterexample :
    (executeReCaptcha "k" 1000 "a" 7
      { initState with cache := [("k-a", ⟨"tok", (0 : Int)⟩)] }).2 = [] ∧
    Effect.invokeResolve 7 (some "tok") ∉
      (executeReCaptcha "k" 1000 "a" 7
        { initState with cache := [("k-a", ⟨"tok", (0 : Int)⟩)] }).2 ∧
    (executeReCaptcha "k" 1000 "a" 7
      { initState with cache := [("k-a", ⟨"tok", (0 : Int)⟩)] }).1.pending =
      [⟨7, "a"⟩] := by
  refine ⟨?_, ?_, ?_⟩ <;> simp [executeReCaptcha, initState]

/-- C1 (amended): once the surface is ready, a cached token for the key
(siteKey, action) younger than 120000 ms resolves the request immediately
with the cached token and injects no script; an entry 120000 ms old or
older triggers a fresh dispatch instead; but a request arriving before
readiness is enqueued regardless of the cache. -/
theorem C1_cache_semantics (siteKey customAction tok : String) (ts now : Int) (rid : Nat)
    (s : BrokerState) (hready : s.isReady = true)
    (hget : mapGet s.cache (siteKey ++ "-" ++ customAction) = some ⟨tok, ts⟩) :
    (now - ts < 120000 →
      executeReCaptcha siteKey now customAction rid s =
        (s, [Effect.invokeResolve rid (some tok)])) ∧
    (120000 ≤ now - ts →
      (executeReCaptcha siteKey now customAction rid s).2 =
        [Effect.injectScript siteKey customAction] ∧
      (executeReCaptcha siteKey now customAction rid s).1.tokenPromise =
        some ⟨rid, customAction⟩) ∧
    (∀ s2 : BrokerState, s2.isReady = false →
      (executeReCaptcha siteKey now customAction rid s2).2 = [] ∧
      (executeReCaptcha siteKey now customAction rid s2).1.pending =
        s2.pending ++ [⟨rid, customAction⟩]) := by
  refine ⟨?_, ?_, ?_⟩
  · intro hfresh
    simp [executeReCaptcha, hready, hget, CACHE_DURATION, hfresh]
  · intro hstale
    have hnot : ¬ (now - ts < CACHE_DURATION) := by
      simp only [CACHE_DURATION]
      omega
    constructor <;>
      simp [executeReCaptcha, hready, hget, hnot, dispatchToSurface, clearErrorState]
  · intro s2 h2
    constructor <;> simp [executeReCaptcha, h2]

/-- C1 witness: concrete fresh cache hit in a ready state. -/
theorem C1_witness :
    executeReCaptcha "k" 100 "a" 3
      { initState with isReady := true, cache := [("k-a", ⟨"tok", (0 : Int)⟩)] } =
      ({ initState with isReady := true, cache := [("k-a", ⟨"tok", (0 : Int)⟩)] },
       [Effect.invokeResolve 3 (some "tok")]) :=
  (C1_cache_semantics "k" "a" "tok" 0 100 3 _ (by decide) (by decide)).1 (by decide)

/-- C10: a VERIFY message whose token field is absent, null, or the empty
string is silently ignored: the state (error, cache, in-flight slot, queue)
is unchanged and no effect fires — no callback, no resolution, no timer
cancellation — so a pending getToken promise stays unsettled until its
timeout. -/
theorem C10_falsy_verify_ignored (s : BrokerState) :
    handleMessage (RawMessage.verify none) s = (s, []) ∧
    handleMessage (RawMessage.verify (some "")) s = (s, []) := by
  constructor <;> simp [handleMessage]

lemma staggered_get (l : List ReqRef) : ∀ (n j : Nat),
    (staggered l n)[j]? =
      (l[j]?).map (fun r => Effect.scheduleDispatch ((n + j + 1) * 500) r.rid r.action) := by
  induction l with
  | nil => intro n j; simp [staggered]
  | cons r t ih =>
    intro n j
    cases j with
    | zero => simp [staggered]
    | succ j =>
      have h : n + 1 + j + 1 = n + (j + 1) + 1 := by omega
      simp [staggered, ih (n + 1) j, h]

/-- C2: requests submitted while the readiness flag is false are never
dispatched to the surface (no script injection, appended to the queue in
submission order); once readiness fires, the drain schedules the queued
request at zero-based position i after i * 500 ms — the head immediately
and each subsequent request after its one-based position in the remaining
queue times 500 ms — preserving FIFO order. -/
theorem C2_fifo_drain :
    (∀ (s : BrokerState) (sk : String) (now : Int) (a : String) (rid : Nat),
      s.isReady = false →
        (executeReCaptcha sk now a rid s).2 = [] ∧
        (executeReCaptcha sk now a rid s).1.pending = s.pending ++ [⟨rid, a⟩]) ∧
    (∀ s : BrokerState, s.isReady = true → s.pending ≠ [] →
      onReadyEffect s = ({ s with pending := [] }, drainQueue s.pending)) ∧
    (∀ (q : List ReqRef) (i : Nat),
      (drainQueue q)[i]? =
        (q[i]?).map (fun r => Effect.scheduleDispatch (i * 500) r.rid r.action)) := by
  refine ⟨?_, ?_, ?_⟩
  · intro s sk now a rid h
    constructor <;> simp [executeReCaptcha, h]
  · intro s h1 h2
    cases hp : s.pending with
    | nil => exact absurd hp h2
    | cons a t => simp [onReadyEffect, h1, hp]
  · intro q i
    cases q with
    | nil => simp [drainQueue]
    | cons first rest =>
      cases i with
      | zero => simp [drainQueue]
      | succ i => simp [drainQueue, staggered_get rest 0 i, Nat.add_comm]

/-- C2 witness: a concrete pre-readiness request is queued with no effect,
and in a three-element queue the third request is scheduled after 1000 ms. -/
theorem C2_witness :
    (executeReCaptcha "k" 0 "a" 1 initState).2 = [] ∧
    (executeReCaptcha "k" 0 "a" 1 initState).1.pending = [⟨1, "a"⟩] ∧
    (drainQueue [⟨1, "a"⟩, ⟨2, "b"⟩, ⟨3, "c"⟩])[2]? =
      some (Effect.scheduleDispatch 1000 3 "c") := by
  obtain ⟨h1, h2, h3⟩ := C2_fifo_drain
  refine ⟨(h1 initState "k" 0 "a" 1 rfl).1, ?_, ?_⟩
  · have h := (h1 initState "k" 0 "a" 1 rfl).2
    simpa [initState] using h
  · have h := h3 [⟨1, "a"⟩, ⟨2, "b"⟩, ⟨3, "c"⟩] 2
    simpa using h

lemma failRun_closed (errs : Nat → String) :
    ∀ (fuel r n : Nat), r ≤ n + fuel →
      failRun r errs n =
        ((List.range (r - n)).map (fun i => 1000 * (n + i)), errs (max r n)) := by
  intro fuel
  induction fuel with
  | zero =>
    intro r n h
    have hn : ¬ n < r := by omega
    rw [failRun]
    have h0 : r - n = 0 := by omega
    have hm : max r n = n := by omega
    simp [hn, h0, hm]
  | succ fuel ih =>
    intro r n h
    by_cases hn : n < r
    · rw [failRun]
      simp only [hn, if_true]
      rw [ih r (n + 1) (by omega)]
      have hm1 : max r (n + 1) = r := by omega
      have hm2 : max r n = r := by omega
      have hr : r - n = (r - (n + 1)) + 1 := by omega
      have hfun : (fun i => 1000 * (n + 1 + i)) = (fun i => 1000 * (n + (i + 1))) := by
        funext i; omega
      rw [hm1, hm2, hr, List.range_succ_eq_map]
      simp [List.map_map, Function.comp_def, hfun, Nat.succ_eq_add_one]
    · rw [failRun]
      have h0 : r - n = 0 := by omega
      have hm : max r n = n := by omega
      simp [hn, h0, hm]

/-- C3 (amended): after each failed attempt numbered n with n below
retryAttempts, wrappedReject schedules a re-dispatch after a linearly
increasing delay of n * 1000 ms; once the attempt counter reaches
retryAttempts the promise is rejected with that last error, so retrying
stops after retryAttempts total failed attempts, i.e. retryAttempts - 1
retries — in particular retryAttempts = 1 performs no retry at all. -/
theorem C3_retry_policy (r : Nat) (a : String) (rid : Nat) (errs : Nat → String)
    (hr : 1 ≤ r) :
    (∀ (s : BrokerState) (n : Nat) (e : String), n < r →
      (wrappedReject r a rid e n s).2 =
        [Effect.cancelTimer rid, Effect.scheduleRetry (1000 * n) rid a (n + 1)]) ∧
    (∀ (s : BrokerState) (e : String),
      (wrappedReject r a rid e r s).2 =
        [Effect.cancelTimer rid, Effect.settleReject rid e]) ∧
    (failRun r errs 1).1 = (List.range (r - 1)).map (fun i => 1000 * (1 + i)) ∧
    (failRun r errs 1).2 = errs r ∧
    (failRun r errs 1).1.length = r - 1 := by
  have hclosed := failRun_closed errs r r 1 (by omega)
  have hmax : max r 1 = r := by omega
  refine ⟨?_, ?_, ?_, ?_, ?_⟩
  · intro s n e hn
    simp [wrappedReject, hn]
  · intro s e
    simp [wrappedReject]
  · rw [hclosed]
  · rw [hclosed, hmax]
  · rw [hclosed]
    simp

/-- C3: refutation of the stated particular: with retryAttempts = 1 the
broker performs no retry — the first failure is already rejected to the
caller — rather than retrying exactly once after 1000 ms. -/
theorem C3_counterexample :
    failRun 1 (fun _ => "network timeout") 1 = ([], "network timeout") ∧
    (failRun 1 (fun _ => "network timeout") 1).1 ≠ [1000] ∧
    (wrappedReject 1 "purchase" 7 "network timeout" 1 initState).2 =
      [Effect.cancelTimer 7, Effect.settleReject 7 "network timeout"] := by
  refine ⟨?_, ?_, ?_⟩
  · rw [failRun]; simp
  · rw [failRun]; simp
  · simp [wrappedReject]

/-- C3 witness: with a budget of three attempts, the first failure retries
after 1000 ms, and a run in which every attempt fails surfaces the error
of the last (third) attempt. -/
theorem C3_witness :
    (wrappedReject 3 "a" 5 "e1" 1 initState).2 =
      [Effect.cancelTimer 5, Effect.scheduleRetry 1000 5 "a" 2] ∧
    (failRun 3 (fun n => if n = 3 then "last" else "mid") 1).2 = "last" := by
  have h := C3_retry_policy 3 "a" 5 (fun n => if n = 3 then "last" else "mid") (by norm_num)
  refine ⟨?_, ?_⟩
  · have h1 := h.1 initState 1 "e1" (by norm_num)
    simpa using h1
  · have h2 := h.2.2.2.1
    simpa using h2

lemma getErrorMessage_timeout :
    getErrorMessage "Token generation timeout" = "Token generation timeout" := by decide

/-- C4: a getToken call made while the surface is not ready (and with no
in-flight request, as is invariant when readiness never fired) arms exactly
one timer with delay equal to the configured timeout, queues the request
without settling it, and when that timer fires the promise is rejected with
the TIMEOUT error Token generation timeout and onError is invoked — the
promise is not left pending forever. -/
theorem C4_timeout_rejects (t : Nat) (rid : Nat) (siteKey customAction : String) (now : Int)
    (s : BrokerState) (hready : s.isReady = false) (hp : s.tokenPromise = none) :
    (getTokenStart t rid siteKey customAction now s).2 = [Effect.armTimer rid t] ∧
    (getTokenStart t rid siteKey customAction now s).1.pending =
      s.pending ++ [⟨rid, customAction⟩] ∧
    (timeoutFire rid (getTokenStart t rid siteKey customAction now s).1).2 =
      [Effect.callOnError "Token generation timeout",
       Effect.settleReject rid "Token generation timeout"] ∧
    (timeoutFire rid (getTokenStart t rid siteKey customAction now s).1).1.error =
      some ⟨ErrorCode.TIMEOUT, "Token generation timeout"⟩ := by
  have hexec : executeReCaptcha siteKey now customAction rid s =
      ({ s with pending := s.pending ++ [⟨rid, customAction⟩] }, []) := by
    simp [executeReCaptcha, hready]
  refine ⟨?_, ?_, ?_, ?_⟩ <;>
    simp [getTokenStart, hexec, timeoutFire, handleError, hp, getErrorMessage_timeout]

/-- C4 witness: the default 30000 ms timeout on the freshly mounted
never-ready state. -/
theorem C4_witness :
    (getTokenStart 30000 1 "k" "a" 0 initState).2 = [Effect.armTimer 1 30000] ∧
    (getTokenStart 30000 1 "k" "a" 0 initState).1.pending =
      initState.pending ++ [⟨1, "a"⟩] ∧
    (timeoutFire 1 (getTokenStart 30000 1 "k" "a" 0 initState).1).2 =
      [Effect.callOnError "Token generation timeout",
       Effect.settleReject 1 "Token generation timeout"] ∧
    (timeoutFire 1 (getTokenStart 30000 1 "k" "a" 0 initState).1).1.error =
      some ⟨ErrorCode.TIMEOUT, "Token generation timeout"⟩ :=
  C4_timeout_rejects 30000 1 "k" "a" 0 initState rfl rfl

lemma handleError_callOnError (m : String) (c : ErrorCode) (s : BrokerState) :
    Effect.callOnError m ∈ (handleError m c s).2 := by
  cases h : s.tokenPromise <;> simp [handleError, h]

lemma handleError_invokeReject (m : String) (c : ErrorCode) (s : BrokerState) (p : ReqRef)
    (hp : s.tokenPromise = some p) :
    Effect.invokeReject p.rid m ∈ (handleError m c s).2 := by
  simp [handleError, hp]

/-- C5: every failure event — an ERROR reply from the surface, a reply
parse failure, a load/navigation failure, an HTTP failure, or a fired
timeout — invokes the onError callback with an error message, and when an
in-flight request exists its reject continuation is invoked as well, so no
failure is silently swallowed. -/
theorem C5_failure_propagation (f : FailureEvent) (s : BrokerState) :
    (∃ m, Effect.callOnError m ∈ (applyFailure f s).2) ∧
    (∀ p : ReqRef, s.tokenPromise = some p →
      ∃ msg, Effect.invokeReject p.rid msg ∈ (applyFailure f s).2) := by
  cases f with
  | errorReply e =>
      exact ⟨⟨_, handleError_callOnError _ _ _⟩,
        fun p hp => ⟨_, handleError_invokeReject _ _ _ p hp⟩⟩
  | parseFailure =>
      exact ⟨⟨_, handleError_callOnError _ _ _⟩,
        fun p hp => ⟨_, handleError_invokeReject _ _ _ p hp⟩⟩
  | loadFailure d =>
      exact ⟨⟨_, handleError_callOnError _ _ _⟩,
        fun p hp => ⟨_, handleError_invokeReject _ _ _ p hp⟩⟩
  | httpFailure c =>
      exact ⟨⟨_, handleError_callOnError _ _ _⟩,
        fun p hp => ⟨_, handleError_invokeReject _ _ _ p hp⟩⟩
  | timeoutFired rid =>
      exact ⟨⟨_, List.mem_append_left _ (handleError_callOnError _ _ _)⟩,
        fun p hp => ⟨_, List.mem_append_left _ (handleError_invokeReject _ _ _ p hp)⟩⟩

/-- C5 witness: a parse failure with an in-flight request fires both
channels. -/
theorem C5_witness :
    (∃ m, Effect.callOnError m ∈
      (applyFailure FailureEvent.parseFailure
        { initState with tokenPromise := some ⟨3, "a"⟩ }).2) ∧
    (∀ p : ReqRef,
      ({ initState with tokenPromise := some ⟨3, "a"⟩ } : BrokerState).tokenPromise = some p →
      ∃ msg, Effect.invokeReject p.rid msg ∈
        (applyFailure FailureEvent.parseFailure
          { initState with tokenPromise := some ⟨3, "a"⟩ }).2) :=
  C5_failure_propagation FailureEvent.parseFailure _

/-- C6: refutation of the stated coverage: an ERROR reply whose remote text
contains the substring network (here network timeout) is classified as the
catch-all WEBVIEW_ERROR, not NETWORK_ERROR — only the message text, not the
code, is rewritten by the substring match on network. -/
theorem C6_counterexample :
    classifyReply (some "network timeout") = ErrorCode.WEBVIEW_ERROR ∧
    ErrorCode.WEBVIEW_ERROR ≠ ErrorCode.NETWORK_ERROR ∧
    (handleMessage (RawMessage.error (some "network timeout")) initState).1.error =
      some ⟨ErrorCode.WEBVIEW_ERROR, "Network error. Check your internet connection."⟩ := by
  refine ⟨by decide, by decide, by decide⟩

/-- C6 (amended): an ERROR reply is classified by substring matching only
between BROWSER_ERROR — exactly when the remote error text contains
browser-error — and the catch-all WEBVIEW_ERROR; this reply classification
never yields NETWORK_ERROR, TIMEOUT, or VALIDATION_ERROR; NETWORK_ERROR
arises from HTTP failures with status at least 500 and TIMEOUT from the
timeout path. -/
theorem C6_classification (e : Option String) (s : BrokerState) (c : Nat) (rid : Nat) :
    (classifyReply e = ErrorCode.BROWSER_ERROR ↔
      strIncludes (e.getD "") "browser-error" = true) ∧
    (classifyReply e = ErrorCode.BROWSER_ERROR ∨ classifyReply e = ErrorCode.WEBVIEW_ERROR) ∧
    (classifyReply e ≠ ErrorCode.VALIDATION_ERROR ∧
     classifyReply e ≠ ErrorCode.NETWORK_ERROR ∧ classifyReply e ≠ ErrorCode.TIMEOUT) ∧
    ((handleMessage (RawMessage.error e) s).1.error.map ReCaptchaError.code =
      some (classifyReply e)) ∧
    (500 ≤ c → (handleWebViewHttpError c s).1.error.map ReCaptchaError.code =
      some ErrorCode.NETWORK_ERROR) ∧
    ((timeoutFire rid s).1.error.map ReCaptchaError.code = some ErrorCode.TIMEOUT) := by
  by_cases h : strIncludes (e.getD "") "browser-error" = true
  · refine ⟨by simp [classifyReply, h], by simp [classifyReply, h],
      by simp [classifyReply, h], ?_, ?_, ?_⟩
    · simp [handleMessage, handleError_error]
    · intro hc
      simp [handleWebViewHttpError, hc, handleError_error]
    · simp [timeoutFire, handleError_error]
  · refine ⟨by simp [classifyReply, h], by simp [classifyReply, h],
      by simp [classifyReply, h], ?_, ?_, ?_⟩
    · simp [handleMessage, handleError_error]
    · intro hc
      simp [handleWebViewHttpError, hc, handleError_error]
    · simp [timeoutFire, handleError_error]

/-- C6 witness: a reply containing browser-error classifies as
BROWSER_ERROR, and an HTTP 503 failure produces NETWORK_ERROR. -/
theorem C6_witness :
    classifyReply (some "got a browser-error here") = ErrorCode.BROWSER_ERROR ∧
    (handleWebViewHttpError 503 initState).1.error.map ReCaptchaError.code =
      some ErrorCode.NETWORK_ERROR := by
  have h := C6_classification (some "got a browser-error here") initState 503 0
  exact ⟨h.1.mpr (by decide), h.2.2.2.2.1 (by norm_num)⟩

lemma handleMessage_isReady (m : RawMessage) (s : BrokerState) :
    ((handleMessage m s).1).isReady = (if m = RawMessage.ready then true else s.isReady) := by
  cases m with
  | ready => simp [handleMessage]
  | verify t =>
      cases t with
      | none => simp [handleMessage]
      | some tok =>
          by_cases h : tok = ""
          · simp [handleMessage, h]
          · cases hp : s.tokenPromise <;> simp [handleMessage, h, hp]
  | error e => simp [handleMessage, handleError_isReady]
  | other => simp [handleMessage]
  | unparseable => simp [handleMessage, handleError_isReady]

lemma wrappedResolve_isReady (sk a : String) (now : Int) (rid : Nat) (tok : Option String)
    (s : BrokerState) : ((wrappedResolve sk a now rid tok s).1).isReady = s.isReady := by
  cases tok with
  | none => simp [wrappedResolve]
  | some t => by_cases h : t = "" <;> simp [wrappedResolve, h]

lemma wrappedReject_isReady (r : Nat) (a : String) (rid : Nat) (e : String) (n : Nat)
    (s : BrokerState) : ((wrappedReject r a rid e n s).1).isReady = s.isReady := by
  by_cases h : n < r <;> simp [wrappedReject, h]

lemma stepBroker_isReady (op : BrokerOp) (s : BrokerState) :
    (stepBroker op s).1.isReady =
      (if op = BrokerOp.deliver RawMessage.ready then true else s.isReady) := by
  cases op with
  | deliver m => simp [stepBroker, handleMessage_isReady]
  | loadFailure d => simp [stepBroker, handleWebViewError, handleError_isReady]
  | httpFailure c => simp [stepBroker, handleWebViewHttpError, handleError_isReady]
  | execute sk now a rid => simp [stepBroker, executeReCaptcha_isReady]
  | clearErrorCall => simp [stepBroker, clearErrorState]
  | timerFired rid => simp [stepBroker, timeoutFire, handleError_isReady]
  | resolveContinuation sk a now rid tok => simp [stepBroker, wrappedResolve_isReady]
  | rejectContinuation r a rid e n => simp [stepBroker, wrappedReject_isReady]
  | drainReady =>
      simp only [stepBroker, onReadyEffect]
      split <;> simp
  | startGetToken t rid sk a now => simp [stepBroker, getTokenStart, executeReCaptcha_isReady]

/-- C7: the readiness flag starts false, the READY message handler sets it
to true, and no other operation of the broker — error handling, clearError,
token dispatch, the wrapped continuations, the drain, a fired timeout —
ever writes it, so it never transitions from true back to false. -/
theorem C7_ready_monotone :
    initState.isReady = false ∧
    (∀ s : BrokerState,
      (stepBroker (BrokerOp.deliver RawMessage.ready) s).1.isReady = true) ∧
    (∀ (op : BrokerOp) (s : BrokerState),
      s.isReady = true → (stepBroker op s).1.isReady = true) ∧
    (∀ (op : BrokerOp) (s : BrokerState),
      (stepBroker op s).1.isReady = true →
        s.isReady = true ∨ op = BrokerOp.deliver RawMessage.ready) := by
  refine ⟨rfl, ?_, ?_, ?_⟩
  · intro s
    rw [stepBroker_isReady]
    simp
  · intro op s h
    rw [stepBroker_isReady]
    split <;> simp [h]
  · intro op s h
    rw [stepBroker_isReady] at h
    by_cases hop : op = BrokerOp.deliver RawMessage.ready
    · exact Or.inr hop
    · rw [if_neg hop] at h
      exact Or.inl h

/-- C7 witness: clearError on a ready state keeps the flag true. -/
theorem C7_witness :
    (stepBroker BrokerOp.clearErrorCall { initState with isReady := true }).1.isReady = true :=
  C7_ready_monotone.2.2.1 BrokerOp.clearErrorCall { initState with isReady := true } rfl

lemma isSiteKeyChar_iff (c : Char) :
    isSiteKeyChar c = true ↔
      (('a' ≤ c ∧ c ≤ 'z') ∨ ('A' ≤ c ∧ c ≤ 'Z') ∨ ('0' ≤ c ∧ c ≤ '9') ∨
        c = '_' ∨ c = '-') := by
  simp only [isSiteKeyChar, Bool.or_eq_true, Bool.and_eq_true, decide_eq_true_iff, beq_iff_eq]
  tauto

lemma executeReCaptcha_no_rejection (sk : String) (now : Int) (a : String) (rid : Nat)
    (st : BrokerState) :
    ∀ e ∈ (executeReCaptcha sk now a rid st).2, isRejection e = false := by
  unfold executeReCaptcha
  cases h : st.isReady
  · simp [h]
  · simp only [h, Bool.not_true, Bool.false_eq_true, if_false]
    cases hm : mapGet st.cache (sk ++ "-" ++ a)
    · simp [hm, dispatchToSurface, isRejection]
    · simp only [hm]
      split
      · simp [isRejection]
      · simp [dispatchToSurface, isRejection]

/-- C8: refutation of the biconditional as stated: a string of forty
hyphen characters is accepted by validateSiteKey although it is not
alphanumeric — the regex class also admits underscore and hyphen. -/
theorem C8_counterexample :
    validateSiteKey (String.mk (List.replicate 40 '-')) = true ∧
    specAlphanumeric40 (String.mk (List.replicate 40 '-')) = false := by
  constructor <;> decide

/-- C8 (amended): validateSiteKey s returns true exactly when s has 40
characters, each a letter, a digit, an underscore, or a hyphen; the
validation runs only when debug is on and only emits console warnings; and
no siteKey value, valid or not, makes getToken emit a rejection at the
start of a request. -/
theorem C8_siteKey_validation (s : String) :
    (validateSiteKey s = true ↔
      (s.length = 40 ∧ ∀ c ∈ s.data,
        ('a' ≤ c ∧ c ≤ 'z') ∨ ('A' ≤ c ∧ c ≤ 'Z') ∨ ('0' ≤ c ∧ c ≤ '9') ∨
          c = '_' ∨ c = '-')) ∧
    (∀ b : Bool, validationWarnings false s b = []) ∧
    (∀ (t rid : Nat) (a : String) (now : Int) (st : BrokerState),
      ∀ e ∈ (getTokenStart t rid s a now st).2, isRejection e = false) := by
  refine ⟨?_, ?_, ?_⟩
  · simp [validateSiteKey, Bool.and_eq_true, List.all_eq_true, isSiteKeyChar_iff, beq_iff_eq]
  · intro b
    simp [validationWarnings]
  · intro t rid a now st e he
    simp only [getTokenStart, List.mem_cons] at he
    rcases he with rfl | he
    · rfl
    · exact executeReCaptcha_no_rejection s now a rid st e he

/-- C8 witness: no warnings with debug off, and a 40-letter key validates. -/
theorem C8_witness :
    validationWarnings false "short" true = [] ∧
    validateSiteKey (String.mk (List.replicate 40 'a')) = true := by
  refine ⟨(C8_siteKey_validation "short").2.1 true, ?_⟩
  exact (C8_siteKey_validation (String.mk (List.replicate 40 'a'))).1.mpr (by decide)

/-- C9: a resolution served from the cache goes through wrappedResolve,
which rewrites the cache entry of (siteKey, action) with the same token and
the current timestamp; hence as long as requests for the action keep
arriving less than 120000 ms apart, the same token keeps being served as
fresh — unbounded past 120000 ms from the moment it was first cached. -/
theorem C9_cache_refresh (siteKey customAction tok : String) (ts now now2 : Int)
    (rid rid2 : Nat) (s : BrokerState)
    (hready : s.isReady = true)
    (hget : mapGet s.cache (siteKey ++ "-" ++ customAction) = some ⟨tok, ts⟩)
    (htok : tok ≠ "")
    (hfresh : now - ts < 120000) :
    (executeReCaptcha siteKey now customAction rid s).2 =
      [Effect.invokeResolve rid (some tok)] ∧
    mapGet ((wrappedResolve siteKey customAction now rid (some tok) s).1).cache
      (siteKey ++ "-" ++ customAction) = some ⟨tok, now⟩ ∧
    (now2 - now < 120000 →
      (executeReCaptcha siteKey now2 customAction rid2
        ((wrappedResolve siteKey customAction now rid (some tok) s).1)).2 =
        [Effect.invokeResolve rid2 (some tok)]) := by
  have h1 : executeReCaptcha siteKey now customAction rid s =
      (s, [Effect.invokeResolve rid (some tok)]) := by
    simp [executeReCaptcha, hready, hget, CACHE_DURATION, hfresh]
  have hw : ((wrappedResolve siteKey customAction now rid (some tok) s).1).cache =
      mapSet s.cache (siteKey ++ "-" ++ customAction) ⟨tok, now⟩ := by
    simp [wrappedResolve, beq_iff_eq, htok]
  have hw2 : ((wrappedResolve siteKey customAction now rid (some tok) s).1).isReady =
      s.isReady := by
    simp [wrappedResolve, beq_iff_eq, htok]
  refine ⟨by rw [h1], ?_, ?_⟩
  · rw [hw, mapGet_mapSet_self]
  · intro hfresh2
    simp [executeReCaptcha, hw2, hready, hw, mapGet_mapSet_self, CACHE_DURATION, hfresh2]

/-- C9 witness: a token cached at time 0 is re-served and re-timestamped at
100000 ms, and then served again at 200000 ms — more than 120000 ms after
its original capture. -/
theorem C9_witness :
    ((executeReCaptcha "k" 100000 "a" 1
        { initState with isReady := true, cache := [("k-a", ⟨"tok", (0 : Int)⟩)] }).2 =
      [Effect.invokeResolve 1 (some "tok")]) ∧
    (mapGet ((wrappedResolve "k" "a" 100000 1 (some "tok")
        { initState with isReady := true, cache := [("k-a", ⟨"tok", (0 : Int)⟩)] }).1).cache
      ("k" ++ "-" ++ "a") = some ⟨"tok", 100000⟩) ∧
    ((200000 : Int) - 100000 < 120000 →
      (executeReCaptcha "k" 200000 "a" 2
        ((wrappedResolve "k" "a" 100000 1 (some "tok")
          { initState with isReady := true, cache := [("k-a", ⟨"tok", (0 : Int)⟩)] }).1)).2 =
        [Effect.invokeResolve 2 (some "tok")]) :=
  C9_cache_refresh "k" "a" "tok" 0 100000 200000 1 2
    { initState with isReady := true, cache := [("k-a", ⟨"tok", (0 : Int)⟩)] }
    rfl (by decide) (by decide) (by decide)

end ReCaptcha
